import Mathlib

/-!
Shallow embedding of the buwis-friend tax library: the invoice tax-breakdown
engine (`computeBreakdown` in `business-invoice.ts`), the income-tax schedule
(`computeGraduatedIncomeTax`), session invoice insertion
(`business-buwis-friend.ts`), and the Money / invoice JSON serialization layer.

JavaScript numbers are modelled as exact rationals.  The JavaScript idiom
`x || d` applied to numbers is modelled by `jsOr` (it yields `d` exactly when
`x` is zero, since `0` is the only falsy rational here).  `Math.round` is
`⌊x + 1/2⌋`, rounding halves toward positive infinity, which is exact for
rationals.
-/

namespace Buwis

/-- VAT registration classification of an invoice (`InvoiceVATType`). -/
inductive InvoiceVATType
  | NON_VAT
  | VAT
deriving DecidableEq, Repr

/-- VAT subtype of an invoice (`VATSubType`). -/
inductive VATSubType
  | STANDARD
  | EXEMPT
  | ZERO_RATED
deriving DecidableEq, Repr

/-- Payment methods accepted for the invoice (`InvoicePaymentMethod`). -/
inductive InvoicePaymentMethod
  | CASH
  | BANK
  | EWALLET
  | CHECK
deriving DecidableEq, Repr

/-- Classification of the invoice based on its purpose (`InvoiceType`). -/
inductive InvoiceType
  | SALES
  | SERVICE
  | COMMERCIAL
deriving DecidableEq, Repr

/-- Income tax regime selector (`IncomeTaxType` in enums-finance). -/
inductive IncomeTaxType
  | GRADUATED
  | FLAT
deriving DecidableEq, Repr

/-- One order line (`OrderMetadata`): the engine only reads `amount`, which is
stored rather than recomputed from `quantity × unitPrice`. -/
structure OrderMetadata where
  label : String
  quantity : ℚ
  unit : String
  unitPrice : ℚ
  amount : ℚ
deriving DecidableEq, Repr

/-- Discount block of a breakdown (`InvoiceDiscount`). -/
structure InvoiceDiscount where
  scPWD : ℚ
  other : ℚ
  totalDiscount : ℚ
deriving DecidableEq, Repr

/-- VAT block of a breakdown (`VATMetadata`). -/
structure VATMetadata where
  rate : ℚ
  vatSubtype : VATSubType
  isVATInclusive : Bool
  totalVAT : ℚ
  salesVATable : ℚ
  vatExemptSales : ℚ
  vatZeroRatedSales : ℚ
  totalSalesVATInclusive : ℚ
deriving DecidableEq, Repr

/-- Percentage-tax block of a breakdown (`PercentageTaxMetadata`). -/
structure PercentageTaxMetadata where
  rate : ℚ
  totalPercentageTax : ℚ
deriving DecidableEq, Repr

/-- Withholding-tax block of a breakdown (`WithholdingTaxMetadata`). -/
structure WithholdingTaxMetadata where
  rate : ℚ
  totalWithheldTax : ℚ
deriving DecidableEq, Repr

/-- Computed financial breakdown of an invoice (`InvoiceBreakdown`). -/
structure InvoiceBreakdown where
  totalSales : ℚ
  netReceivable : ℚ
  discount : InvoiceDiscount
  totalAmountDue : ℚ
  salesPT : ℚ
  exemptSales : ℚ
  vat : VATMetadata
  percentageTax : PercentageTaxMetadata
  withholdingTax : WithholdingTaxMetadata
deriving DecidableEq, Repr

/-- A legal entity (`LegalEntity` in types-business): optional fields are
`Option`, with `none` standing for `undefined`/`null`. -/
structure LegalEntity where
  name : String
  tin : String
  address : String
  businessName : String
  contactNumber : Option String := none
  emailAddress : Option String := none
  website : Option String := none
  oscaPWDNumber : Option String := none
deriving DecidableEq, Repr

/-- Default tax rates (`DefaultTaxRates`). -/
structure DefaultTaxRates where
  vat : ℚ
  percentageTax : ℚ
  withholdingTax : ℚ
deriving DecidableEq, Repr

/-- The `defaultTaxRates` constant: 12% VAT, 3% percentage tax, 5% withholding. -/
def defaultTaxRates : DefaultTaxRates :=
  { vat := 12 / 100, percentageTax := 3 / 100, withholdingTax := 5 / 100 }

/-- The constant `defaultSCPWDDiscount = 0.2`, the statutory senior-citizen/PWD discount. -/
def defaultSCPWDDiscount : ℚ := 2 / 10

/-- JavaScript `x || d` on numbers: `0` is the only falsy rational. -/
def jsOr (x d : ℚ) : ℚ := if x = 0 then d else x

/-- The library's `round` helper: `Math.round(num * 100) / 100`.  `Math.round`
rounds to the nearest integer with ties going toward positive infinity, i.e.
`⌊x + 1/2⌋`. -/
def round (num : ℚ) : ℚ := (⌊num * 100 + 1 / 2⌋ : ℚ) / 100

/-- JavaScript `String.prototype.trim`, modelled on the character list:
drop whitespace from both ends. -/
def jsTrim (s : String) : String :=
  ⟨((s.data.dropWhile Char.isWhitespace).reverse.dropWhile Char.isWhitespace).reverse⟩

/-- Models `isEligibleForScPwdDiscount`: true iff the customer's OSCA/PWD number is
present and nonempty after trimming (`!!customer?.oscaPWDNumber?.trim()`). -/
def isEligibleForScPwdDiscount (customer : LegalEntity) : Bool :=
  match customer.oscaPWDNumber with
  | some s => jsTrim s ≠ ""
  | none => false

/-- The result of the `switch (vatSubtype)` block inside `computeBreakdown`:
the five locals it assigns (`salesVATable`, `vatExemptSales`,
`vatZeroRatedSales`, `totalVAT`, `baseAmount`), all initialised to zero. -/
structure VatSwitchResult where
  salesVATable : ℚ
  vatExemptSales : ℚ
  vatZeroRatedSales : ℚ
  totalVAT : ℚ
  baseAmount : ℚ
deriving DecidableEq, Repr

/-- The `switch (vatSubtype)` block of `computeBreakdown` (VAT path). -/
def vatSwitch (vatSubtype : VATSubType) (isVATInclusive : Bool)
    (netSales vatMultiplier vatRate scPWDDiscount : ℚ) : VatSwitchResult :=
  match vatSubtype with
  | .EXEMPT =>
    { salesVATable := 0, vatExemptSales := netSales, vatZeroRatedSales := 0
      totalVAT := 0, baseAmount := 0 }
  | .ZERO_RATED =>
    { salesVATable := 0, vatExemptSales := 0, vatZeroRatedSales := netSales
      totalVAT := 0, baseAmount := 0 }
  | .STANDARD =>
    if isVATInclusive then
      let baseAmount := netSales / vatMultiplier
      let vatExemptSales := scPWDDiscount
      let salesVATable := baseAmount - vatExemptSales
      { salesVATable := salesVATable, vatExemptSales := vatExemptSales
        vatZeroRatedSales := 0, totalVAT := salesVATable * vatRate
        baseAmount := baseAmount }
    else
      let baseAmount := netSales - scPWDDiscount
      { salesVATable := baseAmount, vatExemptSales := 0
        vatZeroRatedSales := 0, totalVAT := baseAmount * vatRate
        baseAmount := baseAmount }

/-- Models `DigitalInvoice.computeBreakdown` as a pure function of the invoice's
VAT classification (`metadata.type`), customer, order lines and previous
breakdown.  Each monetary output is wrapped in `round` exactly where the
source does so. -/
def computeBreakdown (typ : InvoiceVATType) (customer : LegalEntity)
    (orders : List OrderMetadata) (b : InvoiceBreakdown) : InvoiceBreakdown :=
  let isVAT : Bool := typ == InvoiceVATType.VAT
  let isVATInclusive := b.vat.isVATInclusive
  if orders.isEmpty then
    { totalSales := 0
      netReceivable := 0
      discount := { scPWD := 0, other := 0, totalDiscount := 0 }
      withholdingTax := { rate := b.withholdingTax.rate, totalWithheldTax := 0 }
      totalAmountDue := 0
      salesPT := 0
      exemptSales := 0
      vat := { rate := if isVAT then defaultTaxRates.vat else 0
               isVATInclusive := isVATInclusive
               vatSubtype := .STANDARD
               totalVAT := 0, salesVATable := 0, vatExemptSales := 0
               vatZeroRatedSales := 0, totalSalesVATInclusive := 0 }
      percentageTax := { rate := if isVAT then 0 else defaultTaxRates.percentageTax
                         totalPercentageTax := 0 } }
  else
    let totalSales := orders.foldl (fun acc item => acc + item.amount) 0
    let discount := b.discount
    let otherDiscounts := discount.other
    let netSales := totalSales - otherDiscounts
    let vatRate := if isVAT then jsOr b.vat.rate defaultTaxRates.vat else 0
    let vatMultiplier := 1 + vatRate
    let vatSubtype := b.vat.vatSubtype
    let scPWD :=
      if isEligibleForScPwdDiscount customer then
        if isVAT && isVATInclusive then
          (netSales / (1 + vatRate)) * defaultSCPWDDiscount
        else
          netSales * defaultSCPWDDiscount
      else discount.scPWD
    let totalDiscount := scPWD + discount.other
    let salesLessScPwdDiscounts := netSales - scPWD
    let whtRate := jsOr b.withholdingTax.rate 0
    let totalWithheldTaxNonVAT := netSales * whtRate
    let ptRate := jsOr b.percentageTax.rate defaultTaxRates.percentageTax
    let totalPercentageTax := salesLessScPwdDiscounts * ptRate
    let netReceivableNonVAT := netSales - totalWithheldTaxNonVAT - totalPercentageTax
    let totalAmountPayableNonVAT := netSales - totalWithheldTaxNonVAT
    if !isVAT then
      { totalSales := round totalSales
        discount := { scPWD := round scPWD, other := round discount.other
                      totalDiscount := round totalDiscount }
        netReceivable := round netReceivableNonVAT
        withholdingTax := { rate := whtRate
                            totalWithheldTax := round totalWithheldTaxNonVAT }
        totalAmountDue := round totalAmountPayableNonVAT
        salesPT := if scPWD > 0 then round salesLessScPwdDiscounts else round netSales
        exemptSales := 0
        vat := { rate := 0
                 isVATInclusive := b.vat.isVATInclusive
                 vatSubtype := .STANDARD
                 totalVAT := 0, salesVATable := 0, vatExemptSales := 0
                 vatZeroRatedSales := 0, totalSalesVATInclusive := 0 }
        percentageTax := { rate := ptRate
                           totalPercentageTax := round totalPercentageTax } }
    else
      let scPWDDiscount := jsOr scPWD 0
      let p := vatSwitch vatSubtype isVATInclusive netSales vatMultiplier vatRate scPWDDiscount
      let totalSalesVATInclusive :=
        if isVATInclusive then netSales else p.salesVATable + p.totalVAT
      let totalWithheldTaxVAT := p.baseAmount * whtRate
      let netReceivableVAT := p.baseAmount - totalWithheldTaxVAT
      let totalAmountDuePayable := totalSalesVATInclusive - totalWithheldTaxVAT
      { totalSales := round totalSales
        discount := { scPWD := round scPWD, other := round discount.other
                      totalDiscount := round totalDiscount }
        netReceivable := round netReceivableVAT
        withholdingTax := { rate := whtRate
                            totalWithheldTax := round totalWithheldTaxVAT }
        totalAmountDue := round totalAmountDuePayable
        salesPT := 0
        exemptSales := 0
        vat := { rate := vatRate
                 isVATInclusive := isVATInclusive
                 vatSubtype := b.vat.vatSubtype
                 totalVAT := round p.totalVAT
                 salesVATable := round p.salesVATable
                 vatExemptSales := round p.vatExemptSales
                 vatZeroRatedSales := round p.vatZeroRatedSales
                 totalSalesVATInclusive := round totalSalesVATInclusive }
        percentageTax := { rate := 0, totalPercentageTax := 0 } }

/-- Models `computeGraduatedIncomeTax` from the finance utilities: BIR income tax due
for an annual net taxable income under the chosen regime. -/
def computeGraduatedIncomeTax (income : ℚ) (typ : IncomeTaxType) : ℚ :=
  if typ = IncomeTaxType.FLAT then
    if income > 250000 then (income - 250000) * (8 / 100) else 0
  else
    if income ≤ 250000 then 0
    else if income ≤ 400000 then (income - 250000) * (15 / 100)
    else if income ≤ 800000 then 22500 + (income - 400000) * (20 / 100)
    else if income ≤ 2000000 then 102500 + (income - 800000) * (25 / 100)
    else if income ≤ 8000000 then 402500 + (income - 2000000) * (30 / 100)
    else 2202500 + (income - 8000000) * (35 / 100)

/-- Builds a breakdown state with the given configuration; computed totals
start at zero, as in a freshly initialized invoice. -/
def mkBreakdown (vatRate : ℚ) (sub : VATSubType) (inclusive : Bool)
    (ptRate whtRate scPWD other : ℚ) : InvoiceBreakdown :=
  { totalSales := 0, netReceivable := 0
    discount := { scPWD := scPWD, other := other, totalDiscount := scPWD + other }
    totalAmountDue := 0, salesPT := 0, exemptSales := 0
    vat := { rate := vatRate, vatSubtype := sub, isVATInclusive := inclusive
             totalVAT := 0, salesVATable := 0, vatExemptSales := 0
             vatZeroRatedSales := 0, totalSalesVATInclusive := 0 }
    percentageTax := { rate := ptRate, totalPercentageTax := 0 }
    withholdingTax := { rate := whtRate, totalWithheldTax := 0 } }

/-- A customer with no OSCA/PWD number (not SC/PWD-eligible). -/
def plainCustomer : LegalEntity :=
  { name := "Customer XYZ", tin := "100000000000"
    address := "123 ABC St., Manila", businessName := "The Zelijah World" }

/-- A customer carrying a nonempty OSCA/PWD number (SC/PWD-eligible). -/
def eligibleCustomer : LegalEntity :=
  { plainCustomer with oscaPWDNumber := some "OSCA-12345" }

/-- A one-item order line with the given amount. -/
def line (amt : ℚ) : OrderMetadata :=
  { label := "item", quantity := 1, unit := "pc", unitPrice := amt, amount := amt }

theorem jsOr_zero (x : ℚ) : jsOr x 0 = x := by
  unfold jsOr; split_ifs with h
  · exact h.symm
  · rfl

theorem jsOr_of_ne {x : ℚ} (d : ℚ) (h : x ≠ 0) : jsOr x d = x := if_neg h

theorem round_zero : round 0 = 0 := by unfold round; norm_num

/-- Unfolded form of `computeBreakdown` on the non-VAT path with at least one
order line. -/
theorem computeBreakdown_nonvat_eq (customer : LegalEntity)
    (b : InvoiceBreakdown) (o : OrderMetadata) (os : List OrderMetadata) :
    computeBreakdown InvoiceVATType.NON_VAT customer (o :: os) b =
      (let totalSales := (o :: os).foldl (fun acc item => acc + item.amount) 0
       let netSales := totalSales - b.discount.other
       let scPWD := if isEligibleForScPwdDiscount customer
         then netSales * defaultSCPWDDiscount else b.discount.scPWD
       let whtRate := jsOr b.withholdingTax.rate 0
       let ptRate := jsOr b.percentageTax.rate defaultTaxRates.percentageTax
       { totalSales := round totalSales
         discount := { scPWD := round scPWD, other := round b.discount.other
                       totalDiscount := round (scPWD + b.discount.other) }
         netReceivable := round (netSales - netSales * whtRate - (netSales - scPWD) * ptRate)
         withholdingTax := { rate := whtRate
                             totalWithheldTax := round (netSales * whtRate) }
         totalAmountDue := round (netSales - netSales * whtRate)
         salesPT := if scPWD > 0 then round (netSales - scPWD) else round netSales
         exemptSales := 0
         vat := { rate := 0, isVATInclusive := b.vat.isVATInclusive
                  vatSubtype := .STANDARD, totalVAT := 0, salesVATable := 0
                  vatExemptSales := 0, vatZeroRatedSales := 0
                  totalSalesVATInclusive := 0 }
         percentageTax := { rate := ptRate
                            totalPercentageTax := round ((netSales - scPWD) * ptRate) } }) :=
  rfl

/-- Unfolded form of `computeBreakdown` on the VAT path with at least one
order line, with the subtype switch kept as `vatSwitch`. -/
theorem computeBreakdown_vat_eq (customer : LegalEntity)
    (b : InvoiceBreakdown) (o : OrderMetadata) (os : List OrderMetadata) :
    computeBreakdown InvoiceVATType.VAT customer (o :: os) b =
      (let totalSales := (o :: os).foldl (fun acc item => acc + item.amount) 0
       let netSales := totalSales - b.discount.other
       let vatRate := jsOr b.vat.rate defaultTaxRates.vat
       let scPWD := if isEligibleForScPwdDiscount customer
         then (if b.vat.isVATInclusive
           then (netSales / (1 + vatRate)) * defaultSCPWDDiscount
           else netSales * defaultSCPWDDiscount)
         else b.discount.scPWD
       let whtRate := jsOr b.withholdingTax.rate 0
       let p := vatSwitch b.vat.vatSubtype b.vat.isVATInclusive netSales
         (1 + vatRate) vatRate (jsOr scPWD 0)
       let totalSalesVATInclusive :=
         if b.vat.isVATInclusive then netSales else p.salesVATable + p.totalVAT
       { totalSales := round totalSales
         discount := { scPWD := round scPWD, other := round b.discount.other
                       totalDiscount := round (scPWD + b.discount.other) }
         netReceivable := round (p.baseAmount - p.baseAmount * whtRate)
         withholdingTax := { rate := whtRate
                             totalWithheldTax := round (p.baseAmount * whtRate) }
         totalAmountDue := round (totalSalesVATInclusive - p.baseAmount * whtRate)
         salesPT := 0
         exemptSales := 0
         vat := { rate := vatRate, isVATInclusive := b.vat.isVATInclusive
                  vatSubtype := b.vat.vatSubtype
                  totalVAT := round p.totalVAT
                  salesVATable := round p.salesVATable
                  vatExemptSales := round p.vatExemptSales
                  vatZeroRatedSales := round p.vatZeroRatedSales
                  totalSalesVATInclusive := round totalSalesVATInclusive }
         percentageTax := { rate := 0, totalPercentageTax := 0 } }) :=
  rfl

/-- C1 counterexample: a non-VAT invoice with one 10,000 line, no discounts,
and configured percentage-tax rate exactly zero.  The claim's formula gives
percentageTax = (10,000 − 0) × 0 = 0, but the engine treats the zero rate as
falsy, substitutes the default 3% rate, and outputs 300. -/
theorem nonvat_zero_ptRate_counterexample :
    (computeBreakdown InvoiceVATType.NON_VAT plainCustomer [line 10000]
        (mkBreakdown 0 .STANDARD true 0 (5 / 100) 0 0)).percentageTax.totalPercentageTax ≠
      ((10000 : ℚ) - 0) * 0 := by
  rw [computeBreakdown_nonvat_eq]
  norm_num [mkBreakdown, plainCustomer, line, isEligibleForScPwdDiscount, jsOr,
    defaultTaxRates, round]

/-- C1 (amended): for every non-VAT invoice with at least one order line and
a NONZERO configured percentage-tax rate ptRate (a zero rate is falsy and
falls back to the default 3%), with withholding rate whtRate, recomputing the
breakdown yields withholdingTax = netSales × whtRate, percentageTax =
(netSales − scPwdDiscount) × ptRate, netReceivable = netSales −
withholdingTax − percentageTax, totalAmountDue = netSales − withholdingTax,
and salesPT = netSales − scPwdDiscount when an SC/PWD discount applied, else
netSales, where netSales = totalSales − otherDiscount and every monetary
output carries the final 2-decimal rounding. -/
theorem nonvat_breakdown_formulas (customer : LegalEntity)
    (b : InvoiceBreakdown) (orders : List OrderMetadata) (h : orders ≠ [])
    (hpt : b.percentageTax.rate ≠ 0) :
    let totalSales := orders.foldl (fun acc item => acc + item.amount) 0
    let netSales := totalSales - b.discount.other
    let scPwd := if isEligibleForScPwdDiscount customer
      then netSales * defaultSCPWDDiscount else b.discount.scPWD
    let out := computeBreakdown InvoiceVATType.NON_VAT customer orders b
    out.totalSales = round totalSales ∧
    out.withholdingTax.totalWithheldTax = round (netSales * b.withholdingTax.rate) ∧
    out.percentageTax.totalPercentageTax =
      round ((netSales - scPwd) * b.percentageTax.rate) ∧
    out.netReceivable = round (netSales - netSales * b.withholdingTax.rate -
      (netSales - scPwd) * b.percentageTax.rate) ∧
    out.totalAmountDue = round (netSales - netSales * b.withholdingTax.rate) ∧
    out.salesPT = (if scPwd > 0 then round (netSales - scPwd) else round netSales) := by
  obtain ⟨o, os, rfl⟩ := List.exists_cons_of_ne_nil h
  simp only [computeBreakdown_nonvat_eq, jsOr_zero, jsOr_of_ne _ hpt]
  exact ⟨trivial, trivial, trivial, trivial, trivial, trivial⟩

/-- C1 witness: the spec's own example, totalSales = 10,000, otherDiscount =
0, no SC/PWD, ptRate = 0.03, whtRate = 0.05, instantiating the theorem and
checking percentageTax = 300, withholdingTax = 500, netReceivable = 9,200,
totalAmountDue = 9,500. -/
theorem nonvat_breakdown_formulas_witness :
    ([line 10000] ≠ ([] : List OrderMetadata)) ∧
    ((mkBreakdown 0 .STANDARD true (3 / 100) (5 / 100) 0 0).percentageTax.rate ≠ 0) ∧
    (let totalSales := [line 10000].foldl (fun acc item => acc + item.amount) 0
     let netSales := totalSales -
       (mkBreakdown 0 .STANDARD true (3 / 100) (5 / 100) 0 0).discount.other
     let scPwd := if isEligibleForScPwdDiscount plainCustomer
       then netSales * defaultSCPWDDiscount
       else (mkBreakdown 0 .STANDARD true (3 / 100) (5 / 100) 0 0).discount.scPWD
     let out := computeBreakdown InvoiceVATType.NON_VAT plainCustomer [line 10000]
       (mkBreakdown 0 .STANDARD true (3 / 100) (5 / 100) 0 0)
     out.totalSales = round totalSales ∧
     out.withholdingTax.totalWithheldTax = round (netSales *
       (mkBreakdown 0 .STANDARD true (3 / 100) (5 / 100) 0 0).withholdingTax.rate) ∧
     out.percentageTax.totalPercentageTax = round ((netSales - scPwd) *
       (mkBreakdown 0 .STANDARD true (3 / 100) (5 / 100) 0 0).percentageTax.rate) ∧
     out.netReceivable = round (netSales - netSales *
       (mkBreakdown 0 .STANDARD true (3 / 100) (5 / 100) 0 0).withholdingTax.rate -
       (netSales - scPwd) *
       (mkBreakdown 0 .STANDARD true (3 / 100) (5 / 100) 0 0).percentageTax.rate) ∧
     out.totalAmountDue = round (netSales - netSales *
       (mkBreakdown 0 .STANDARD true (3 / 100) (5 / 100) 0 0).withholdingTax.rate) ∧
     out.salesPT = (if scPwd > 0 then round (netSales - scPwd) else round netSales)) ∧
    (computeBreakdown InvoiceVATType.NON_VAT plainCustomer [line 10000]
      (mkBreakdown 0 .STANDARD true (3 / 100) (5 / 100) 0 0)).percentageTax.totalPercentageTax
      = 300 ∧
    (computeBreakdown InvoiceVATType.NON_VAT plainCustomer [line 10000]
      (mkBreakdown 0 .STANDARD true (3 / 100) (5 / 100) 0 0)).withholdingTax.totalWithheldTax
      = 500 ∧
    (computeBreakdown InvoiceVATType.NON_VAT plainCustomer [line 10000]
      (mkBreakdown 0 .STANDARD true (3 / 100) (5 / 100) 0 0)).netReceivable = 9200 ∧
    (computeBreakdown InvoiceVATType.NON_VAT plainCustomer [line 10000]
      (mkBreakdown 0 .STANDARD true (3 / 100) (5 / 100) 0 0)).totalAmountDue = 9500 :=
  ⟨List.cons_ne_nil _ _, by norm_num [mkBreakdown],
   nonvat_breakdown_formulas plainCustomer _ _ (List.cons_ne_nil _ _)
     (by norm_num [mkBreakdown]),
   by rw [computeBreakdown_nonvat_eq]; norm_num [mkBreakdown, plainCustomer, line,
     isEligibleForScPwdDiscount, jsOr, round],
   by rw [computeBreakdown_nonvat_eq]; norm_num [mkBreakdown, plainCustomer, line,
     isEligibleForScPwdDiscount, jsOr, round],
   by rw [computeBreakdown_nonvat_eq]; norm_num [mkBreakdown, plainCustomer, line,
     isEligibleForScPwdDiscount, jsOr, round],
   by rw [computeBreakdown_nonvat_eq]; norm_num [mkBreakdown, plainCustomer, line,
     isEligibleForScPwdDiscount, jsOr, round]⟩

/-- C2 counterexample: a VAT-registered STANDARD VAT-exclusive invoice with
one 100 line and configured VAT rate exactly zero (which is > −1).  The
claim's formula gives totalVAT = salesVATable × 0 = 0, but the engine treats
the zero rate as falsy, substitutes the default 12% rate, and outputs 12. -/
theorem vat_zero_rate_counterexample :
    (computeBreakdown InvoiceVATType.VAT plainCustomer [line 100]
        (mkBreakdown 0 .STANDARD false 0 0 0 0)).vat.totalVAT ≠
      ((100 : ℚ) - 0) * 0 := by
  rw [computeBreakdown_vat_eq]
  norm_num [mkBreakdown, plainCustomer, line, isEligibleForScPwdDiscount, jsOr,
    defaultTaxRates, round, vatSwitch]

/-- The spec's VAT-inclusive standard example configuration: VAT rate 12%,
STANDARD subtype, VAT-inclusive, no percentage/withholding tax, no
discounts. -/
def vatExampleBreakdown : InvoiceBreakdown :=
  mkBreakdown (12 / 100) .STANDARD true 0 0 0 0

/-- C2 (amended): for every VAT-registered invoice with subtype STANDARD, at
least one order line, and a NONZERO configured VAT rate vatRate > −1 (a zero
rate is falsy and falls back to the default 12%): if VAT-inclusive, base =
netSales / (1+vatRate), vatExemptSales = scPwdDiscount, salesVATable = base −
vatExemptSales, totalVAT = salesVATable × vatRate, totalSalesVATInclusive =
netSales; if VAT-exclusive, base = salesVATable = netSales − scPwdDiscount,
totalVAT = salesVATable × vatRate, totalSalesVATInclusive = salesVATable +
totalVAT; in both cases withholdingTax = base × whtRate, netReceivable =
base − withholdingTax, totalAmountDue = totalSalesVATInclusive −
withholdingTax, with the percentage-tax block zeroed; monetary outputs carry
the final 2-decimal rounding. -/
theorem vat_standard_breakdown_formulas (customer : LegalEntity)
    (b : InvoiceBreakdown) (orders : List OrderMetadata) (h : orders ≠ [])
    (hsub : b.vat.vatSubtype = VATSubType.STANDARD)
    (hv0 : b.vat.rate ≠ 0) (_hv1 : b.vat.rate > -1) :
    let vatRate := b.vat.rate
    let totalSales := orders.foldl (fun acc item => acc + item.amount) 0
    let netSales := totalSales - b.discount.other
    let scPwd := if isEligibleForScPwdDiscount customer
      then (if b.vat.isVATInclusive
        then (netSales / (1 + vatRate)) * defaultSCPWDDiscount
        else netSales * defaultSCPWDDiscount)
      else b.discount.scPWD
    let base := if b.vat.isVATInclusive then netSales / (1 + vatRate)
      else netSales - scPwd
    let salesVATable := if b.vat.isVATInclusive then base - scPwd else base
    let totalVAT := salesVATable * vatRate
    let totalSalesVATInclusive := if b.vat.isVATInclusive then netSales
      else salesVATable + totalVAT
    let out := computeBreakdown InvoiceVATType.VAT customer orders b
    out.vat.totalVAT = round totalVAT ∧
    out.vat.salesVATable = round salesVATable ∧
    out.vat.vatExemptSales = round (if b.vat.isVATInclusive then scPwd else 0) ∧
    out.vat.totalSalesVATInclusive = round totalSalesVATInclusive ∧
    out.withholdingTax.totalWithheldTax = round (base * b.withholdingTax.rate) ∧
    out.netReceivable = round (base - base * b.withholdingTax.rate) ∧
    out.totalAmountDue =
      round (totalSalesVATInclusive - base * b.withholdingTax.rate) ∧
    out.percentageTax.rate = 0 ∧ out.percentageTax.totalPercentageTax = 0 := by
  obtain ⟨o, os, rfl⟩ := List.exists_cons_of_ne_nil h
  cases hinc : b.vat.isVATInclusive <;>
    simp only [computeBreakdown_vat_eq, jsOr_zero, jsOr_of_ne _ hv0, hsub, hinc,
      vatSwitch, if_true, if_false, Bool.false_eq_true, ite_true, ite_false] <;>
    exact ⟨trivial, trivial, trivial, trivial, trivial, trivial, trivial, trivial, trivial⟩

/-- C2 witness: the spec's own example, totalSales = 11,200, vatRate = 0.12,
whtRate = 0, VAT-inclusive STANDARD, instantiating the theorem and checking
totalVAT = 1,200, salesVATable = 10,000, netReceivable = 10,000,
totalAmountDue = 11,200, totalSalesVATInclusive = 11,200. -/
theorem vat_standard_breakdown_formulas_witness :
    ([line 11200] ≠ ([] : List OrderMetadata)) ∧
    (vatExampleBreakdown.vat.vatSubtype = VATSubType.STANDARD) ∧
    (vatExampleBreakdown.vat.rate ≠ 0) ∧ (vatExampleBreakdown.vat.rate > -1) ∧
    (let vatRate := vatExampleBreakdown.vat.rate
     let totalSales := [line 11200].foldl (fun acc item => acc + item.amount) 0
     let netSales := totalSales - vatExampleBreakdown.discount.other
     let scPwd := if isEligibleForScPwdDiscount plainCustomer
       then (if vatExampleBreakdown.vat.isVATInclusive
         then (netSales / (1 + vatRate)) * defaultSCPWDDiscount
         else netSales * defaultSCPWDDiscount)
       else vatExampleBreakdown.discount.scPWD
     let base := if vatExampleBreakdown.vat.isVATInclusive
       then netSales / (1 + vatRate) else netSales - scPwd
     let salesVATable := if vatExampleBreakdown.vat.isVATInclusive
       then base - scPwd else base
     let totalVAT := salesVATable * vatRate
     let totalSalesVATInclusive := if vatExampleBreakdown.vat.isVATInclusive
       then netSales else salesVATable + totalVAT
     let out := computeBreakdown InvoiceVATType.VAT plainCustomer [line 11200]
       vatExampleBreakdown
     out.vat.totalVAT = round totalVAT ∧
     out.vat.salesVATable = round salesVATable ∧
     out.vat.vatExemptSales =
       round (if vatExampleBreakdown.vat.isVATInclusive then scPwd else 0) ∧
     out.vat.totalSalesVATInclusive = round totalSalesVATInclusive ∧
     out.withholdingTax.totalWithheldTax =
       round (base * vatExampleBreakdown.withholdingTax.rate) ∧
     out.netReceivable =
       round (base - base * vatExampleBreakdown.withholdingTax.rate) ∧
     out.totalAmountDue = round (totalSalesVATInclusive -
       base * vatExampleBreakdown.withholdingTax.rate) ∧
     out.percentageTax.rate = 0 ∧ out.percentageTax.totalPercentageTax = 0) ∧
    (computeBreakdown InvoiceVATType.VAT plainCustomer [line 11200]
      vatExampleBreakdown).vat.totalVAT = 1200 ∧
    (computeBreakdown InvoiceVATType.VAT plainCustomer [line 11200]
      vatExampleBreakdown).vat.salesVATable = 10000 ∧
    (computeBreakdown InvoiceVATType.VAT plainCustomer [line 11200]
      vatExampleBreakdown).netReceivable = 10000 ∧
    (computeBreakdown InvoiceVATType.VAT plainCustomer [line 11200]
      vatExampleBreakdown).totalAmountDue = 11200 ∧
    (computeBreakdown InvoiceVATType.VAT plainCustomer [line 11200]
      vatExampleBreakdown).vat.totalSalesVATInclusive = 11200 :=
  ⟨List.cons_ne_nil _ _, rfl,
   by norm_num [vatExampleBreakdown, mkBreakdown],
   by norm_num [vatExampleBreakdown, mkBreakdown],
   vat_standard_breakdown_formulas plainCustomer _ _ (List.cons_ne_nil _ _) rfl
     (by norm_num [vatExampleBreakdown, mkBreakdown])
     (by norm_num [vatExampleBreakdown, mkBreakdown]),
   by rw [computeBreakdown_vat_eq]; norm_num [vatExampleBreakdown, mkBreakdown,
     plainCustomer, line, isEligibleForScPwdDiscount, jsOr, defaultTaxRates,
     round, vatSwitch],
   by rw [computeBreakdown_vat_eq]; norm_num [vatExampleBreakdown, mkBreakdown,
     plainCustomer, line, isEligibleForScPwdDiscount, jsOr, defaultTaxRates,
     round, vatSwitch],
   by rw [computeBreakdown_vat_eq]; norm_num [vatExampleBreakdown, mkBreakdown,
     plainCustomer, line, isEligibleForScPwdDiscount, jsOr, defaultTaxRates,
     round, vatSwitch],
   by rw [computeBreakdown_vat_eq]; norm_num [vatExampleBreakdown, mkBreakdown,
     plainCustomer, line, isEligibleForScPwdDiscount, jsOr, defaultTaxRates,
     round, vatSwitch],
   by rw [computeBreakdown_vat_eq]; norm_num [vatExampleBreakdown, mkBreakdown,
     plainCustomer, line, isEligibleForScPwdDiscount, jsOr, defaultTaxRates,
     round, vatSwitch]⟩

/-- C3 counterexample: a customer with no eligibility identifier, but a prior
breakdown whose stored SC/PWD discount is 100 (reachable by computing once
with an OSCA/PWD number and then clearing it via `setCustomerOSCAPWDNumber`).
The claim says no SC/PWD discount is applied, yet recomputation reports the
stale discount of 100, not 0. -/
theorem scpwd_stale_counterexample :
    (computeBreakdown InvoiceVATType.NON_VAT plainCustomer [line 1000]
        (mkBreakdown 0 .STANDARD true (3 / 100) 0 100 0)).discount.scPWD ≠ 0 := by
  rw [computeBreakdown_nonvat_eq]
  norm_num [mkBreakdown, plainCustomer, line, isEligibleForScPwdDiscount, round]

/-- C3 (amended): for every invoice with at least one order line, recomputing
the breakdown sets the SC/PWD discount to (netSales / (1 + vatRate)) × 0.20
when the customer carries a nonempty eligibility identifier and the invoice
is VAT-registered and VAT-inclusive (vatRate being the effective VAT rate,
i.e. the configured rate or, when that is zero, the 12% default), to netSales
× 0.20 when the customer is eligible in every other case, and — contrary to
the original claim — to the PREVIOUSLY STORED discount value (not zero) when
the customer has no nonempty eligibility identifier.  The 20% factor is the
fixed constant `defaultSCPWDDiscount`.  The output carries the final
2-decimal rounding. -/
theorem scpwd_discount_rule (typ : InvoiceVATType) (customer : LegalEntity)
    (b : InvoiceBreakdown) (orders : List OrderMetadata) (h : orders ≠ []) :
    let totalSales := orders.foldl (fun acc item => acc + item.amount) 0
    let netSales := totalSales - b.discount.other
    let vatRate := if typ = InvoiceVATType.VAT
      then jsOr b.vat.rate defaultTaxRates.vat else 0
    let out := computeBreakdown typ customer orders b
    out.discount.scPWD = round (if isEligibleForScPwdDiscount customer
      then (if typ = InvoiceVATType.VAT ∧ b.vat.isVATInclusive = true
        then (netSales / (1 + vatRate)) * defaultSCPWDDiscount
        else netSales * defaultSCPWDDiscount)
      else b.discount.scPWD) ∧
    defaultSCPWDDiscount = 2 / 10 := by
  obtain ⟨o, os, rfl⟩ := List.exists_cons_of_ne_nil h
  refine ⟨?_, rfl⟩
  cases typ
  · simp only [computeBreakdown_nonvat_eq]
    simp
  · cases hinc : b.vat.isVATInclusive <;>
      simp only [computeBreakdown_vat_eq, hinc] <;> simp

/-- C3 witness: the spec's SC/PWD example — an eligible customer on a
VAT-inclusive invoice with netSales = 11,200 and VAT rate 0.12 gets an
SC/PWD discount of 10,000 × 0.20 = 2,000. -/
theorem scpwd_discount_rule_witness :
    ([line 11200] ≠ ([] : List OrderMetadata)) ∧
    (let totalSales := [line 11200].foldl (fun acc item => acc + item.amount) 0
     let netSales := totalSales - vatExampleBreakdown.discount.other
     let vatRate := if InvoiceVATType.VAT = InvoiceVATType.VAT
       then jsOr vatExampleBreakdown.vat.rate defaultTaxRates.vat else 0
     let out := computeBreakdown InvoiceVATType.VAT eligibleCustomer [line 11200]
       vatExampleBreakdown
     out.discount.scPWD = round (if isEligibleForScPwdDiscount eligibleCustomer
       then (if InvoiceVATType.VAT = InvoiceVATType.VAT ∧
           vatExampleBreakdown.vat.isVATInclusive = true
         then (netSales / (1 + vatRate)) * defaultSCPWDDiscount
         else netSales * defaultSCPWDDiscount)
       else vatExampleBreakdown.discount.scPWD) ∧
     defaultSCPWDDiscount = 2 / 10) ∧
    (computeBreakdown InvoiceVATType.VAT eligibleCustomer [line 11200]
      vatExampleBreakdown).discount.scPWD = 2000 :=
  ⟨List.cons_ne_nil _ _,
   scpwd_discount_rule InvoiceVATType.VAT eligibleCustomer vatExampleBreakdown
     [line 11200] (List.cons_ne_nil _ _),
   by rw [computeBreakdown_vat_eq]
      norm_num [vatExampleBreakdown, mkBreakdown, eligibleCustomer, plainCustomer,
        line, isEligibleForScPwdDiscount, jsOr, defaultTaxRates,
        defaultSCPWDDiscount, round]
      rw [if_neg (by decide)]
      norm_num⟩

/-- C9: for every VAT-registered invoice with at least one order line whose
VAT subtype is EXEMPT or ZERO_RATED, the recomputed breakdown has
totalWithheldTax = 0 and netReceivable = 0 regardless of the order amounts
and the withholding rate (the taxable base stays at its initial zero), and
when the invoice is additionally VAT-exclusive, totalAmountDue = 0 as well;
netSales is reported only in vatExemptSales (EXEMPT) or vatZeroRatedSales
(ZERO_RATED), with totalVAT and salesVATable zero. -/
theorem vat_exempt_zero_rated_zeroes (customer : LegalEntity)
    (b : InvoiceBreakdown) (orders : List OrderMetadata) (h : orders ≠ [])
    (hsub : b.vat.vatSubtype = VATSubType.EXEMPT ∨
      b.vat.vatSubtype = VATSubType.ZERO_RATED) :
    let totalSales := orders.foldl (fun acc item => acc + item.amount) 0
    let netSales := totalSales - b.discount.other
    let out := computeBreakdown InvoiceVATType.VAT customer orders b
    out.withholdingTax.totalWithheldTax = 0 ∧
    out.netReceivable = 0 ∧
    (b.vat.isVATInclusive = false → out.totalAmountDue = 0) ∧
    out.vat.totalVAT = 0 ∧ out.vat.salesVATable = 0 ∧
    (b.vat.vatSubtype = VATSubType.EXEMPT →
      out.vat.vatExemptSales = round netSales ∧ out.vat.vatZeroRatedSales = 0) ∧
    (b.vat.vatSubtype = VATSubType.ZERO_RATED →
      out.vat.vatZeroRatedSales = round netSales ∧ out.vat.vatExemptSales = 0) := by
  obtain ⟨o, os, rfl⟩ := List.exists_cons_of_ne_nil h
  rcases hsub with hs | hs <;> cases hinc : b.vat.isVATInclusive <;>
    simp [computeBreakdown_vat_eq, hs, hinc, vatSwitch, jsOr_zero, round_zero]

/-- C9 witness: a VAT-exclusive EXEMPT invoice with one 5,000 line and a 5%
withholding rate has zero withheld tax, zero net receivable, zero amount due,
and reports the 5,000 net sales as VAT-exempt sales. -/
theorem vat_exempt_zero_rated_zeroes_witness :
    ([line 5000] ≠ ([] : List OrderMetadata)) ∧
    ((mkBreakdown (12 / 100) .EXEMPT false 0 (5 / 100) 0 0).vat.vatSubtype =
        VATSubType.EXEMPT ∨
      (mkBreakdown (12 / 100) .EXEMPT false 0 (5 / 100) 0 0).vat.vatSubtype =
        VATSubType.ZERO_RATED) ∧
    (let totalSales := [line 5000].foldl (fun acc item => acc + item.amount) 0
     let netSales := totalSales -
       (mkBreakdown (12 / 100) .EXEMPT false 0 (5 / 100) 0 0).discount.other
     let out := computeBreakdown InvoiceVATType.VAT plainCustomer [line 5000]
       (mkBreakdown (12 / 100) .EXEMPT false 0 (5 / 100) 0 0)
     out.withholdingTax.totalWithheldTax = 0 ∧
     out.netReceivable = 0 ∧
     ((mkBreakdown (12 / 100) .EXEMPT false 0 (5 / 100) 0 0).vat.isVATInclusive = false →
       out.totalAmountDue = 0) ∧
     out.vat.totalVAT = 0 ∧ out.vat.salesVATable = 0 ∧
     ((mkBreakdown (12 / 100) .EXEMPT false 0 (5 / 100) 0 0).vat.vatSubtype =
         VATSubType.EXEMPT →
       out.vat.vatExemptSales = round netSales ∧ out.vat.vatZeroRatedSales = 0) ∧
     ((mkBreakdown (12 / 100) .EXEMPT false 0 (5 / 100) 0 0).vat.vatSubtype =
         VATSubType.ZERO_RATED →
       out.vat.vatZeroRatedSales = round netSales ∧ out.vat.vatExemptSales = 0)) ∧
    (computeBreakdown InvoiceVATType.VAT plainCustomer [line 5000]
      (mkBreakdown (12 / 100) .EXEMPT false 0 (5 / 100) 0 0)).vat.vatExemptSales = 5000 :=
  ⟨List.cons_ne_nil _ _, Or.inl rfl,
   vat_exempt_zero_rated_zeroes plainCustomer _ _ (List.cons_ne_nil _ _) (Or.inl rfl),
   by rw [computeBreakdown_vat_eq]; norm_num [mkBreakdown, plainCustomer, line,
     isEligibleForScPwdDiscount, jsOr, vatSwitch, round]⟩

/-- The exact (unrounded) value prescribed by the breakdown algorithm: the
same computation as `computeBreakdown`, with every final `round` omitted. -/
def computeBreakdownExact (typ : InvoiceVATType) (customer : LegalEntity)
    (orders : List OrderMetadata) (b : InvoiceBreakdown) : InvoiceBreakdown :=
  let isVAT : Bool := typ == InvoiceVATType.VAT
  let isVATInclusive := b.vat.isVATInclusive
  if orders.isEmpty then
    computeBreakdown typ customer orders b
  else
    let totalSales := orders.foldl (fun acc item => acc + item.amount) 0
    let discount := b.discount
    let otherDiscounts := discount.other
    let netSales := totalSales - otherDiscounts
    let vatRate := if isVAT then jsOr b.vat.rate defaultTaxRates.vat else 0
    let vatMultiplier := 1 + vatRate
    let vatSubtype := b.vat.vatSubtype
    let scPWD :=
      if isEligibleForScPwdDiscount customer then
        if isVAT && isVATInclusive then
          (netSales / (1 + vatRate)) * defaultSCPWDDiscount
        else
          netSales * defaultSCPWDDiscount
      else discount.scPWD
    let totalDiscount := scPWD + discount.other
    let salesLessScPwdDiscounts := netSales - scPWD
    let whtRate := jsOr b.withholdingTax.rate 0
    let totalWithheldTaxNonVAT := netSales * whtRate
    let ptRate := jsOr b.percentageTax.rate defaultTaxRates.percentageTax
    let totalPercentageTax := salesLessScPwdDiscounts * ptRate
    let netReceivableNonVAT := netSales - totalWithheldTaxNonVAT - totalPercentageTax
    let totalAmountPayableNonVAT := netSales - totalWithheldTaxNonVAT
    if !isVAT then
      { totalSales := totalSales
        discount := { scPWD := scPWD, other := discount.other
                      totalDiscount := totalDiscount }
        netReceivable := netReceivableNonVAT
        withholdingTax := { rate := whtRate
                            totalWithheldTax := totalWithheldTaxNonVAT }
        totalAmountDue := totalAmountPayableNonVAT
        salesPT := if scPWD > 0 then salesLessScPwdDiscounts else netSales
        exemptSales := 0
        vat := { rate := 0
                 isVATInclusive := b.vat.isVATInclusive
                 vatSubtype := .STANDARD
                 totalVAT := 0, salesVATable := 0, vatExemptSales := 0
                 vatZeroRatedSales := 0, totalSalesVATInclusive := 0 }
        percentageTax := { rate := ptRate
                           totalPercentageTax := totalPercentageTax } }
    else
      let scPWDDiscount := jsOr scPWD 0
      let p := vatSwitch vatSubtype isVATInclusive netSales vatMultiplier vatRate scPWDDiscount
      let totalSalesVATInclusive :=
        if isVATInclusive then netSales else p.salesVATable + p.totalVAT
      let totalWithheldTaxVAT := p.baseAmount * whtRate
      let netReceivableVAT := p.baseAmount - totalWithheldTaxVAT
      let totalAmountDuePayable := totalSalesVATInclusive - totalWithheldTaxVAT
      { totalSales := totalSales
        discount := { scPWD := scPWD, other := discount.other
                      totalDiscount := totalDiscount }
        netReceivable := netReceivableVAT
        withholdingTax := { rate := whtRate
                            totalWithheldTax := totalWithheldTaxVAT }
        totalAmountDue := totalAmountDuePayable
        salesPT := 0
        exemptSales := 0
        vat := { rate := vatRate
                 isVATInclusive := isVATInclusive
                 vatSubtype := b.vat.vatSubtype
                 totalVAT := p.totalVAT
                 salesVATable := p.salesVATable
                 vatExemptSales := p.vatExemptSales
                 vatZeroRatedSales := p.vatZeroRatedSales
                 totalSalesVATInclusive := totalSalesVATInclusive }
        percentageTax := { rate := 0, totalPercentageTax := 0 } }

/-- Applies the final 2-decimal display rounding to every monetary field of a
breakdown, leaving the three tax rates and all flags untouched. -/
def applyRound2 (b : InvoiceBreakdown) : InvoiceBreakdown :=
  { totalSales := round b.totalSales
    netReceivable := round b.netReceivable
    discount := { scPWD := round b.discount.scPWD
                  other := round b.discount.other
                  totalDiscount := round b.discount.totalDiscount }
    totalAmountDue := round b.totalAmountDue
    salesPT := round b.salesPT
    exemptSales := round b.exemptSales
    vat := { b.vat with
             totalVAT := round b.vat.totalVAT
             salesVATable := round b.vat.salesVATable
             vatExemptSales := round b.vat.vatExemptSales
             vatZeroRatedSales := round b.vat.vatZeroRatedSales
             totalSalesVATInclusive := round b.vat.totalSalesVATInclusive }
    percentageTax := { rate := b.percentageTax.rate
                       totalPercentageTax := round b.percentageTax.totalPercentageTax }
    withholdingTax := { rate := b.withholdingTax.rate
                        totalWithheldTax := round b.withholdingTax.totalWithheldTax } }

/-- Unfolded form of `computeBreakdownExact` on the non-VAT path with at
least one order line. -/
theorem computeBreakdownExact_nonvat_eq (customer : LegalEntity)
    (b : InvoiceBreakdown) (o : OrderMetadata) (os : List OrderMetadata) :
    computeBreakdownExact InvoiceVATType.NON_VAT customer (o :: os) b =
      (let totalSales := (o :: os).foldl (fun acc item => acc + item.amount) 0
       let netSales := totalSales - b.discount.other
       let scPWD := if isEligibleForScPwdDiscount customer
         then netSales * defaultSCPWDDiscount else b.discount.scPWD
       let whtRate := jsOr b.withholdingTax.rate 0
       let ptRate := jsOr b.percentageTax.rate defaultTaxRates.percentageTax
       { totalSales := totalSales
         discount := { scPWD := scPWD, other := b.discount.other
                       totalDiscount := scPWD + b.discount.other }
         netReceivable := netSales - netSales * whtRate - (netSales - scPWD) * ptRate
         withholdingTax := { rate := whtRate, totalWithheldTax := netSales * whtRate }
         totalAmountDue := netSales - netSales * whtRate
         salesPT := if scPWD > 0 then netSales - scPWD else netSales
         exemptSales := 0
         vat := { rate := 0, isVATInclusive := b.vat.isVATInclusive
                  vatSubtype := .STANDARD, totalVAT := 0, salesVATable := 0
                  vatExemptSales := 0, vatZeroRatedSales := 0
                  totalSalesVATInclusive := 0 }
         percentageTax := { rate := ptRate
                            totalPercentageTax := (netSales - scPWD) * ptRate } }) :=
  rfl

/-- Unfolded form of `computeBreakdownExact` on the VAT path with at least
one order line. -/
theorem computeBreakdownExact_vat_eq (customer : LegalEntity)
    (b : InvoiceBreakdown) (o : OrderMetadata) (os : List OrderMetadata) :
    computeBreakdownExact InvoiceVATType.VAT customer (o :: os) b =
      (let totalSales := (o :: os).foldl (fun acc item => acc + item.amount) 0
       let netSales := totalSales - b.discount.other
       let vatRate := jsOr b.vat.rate defaultTaxRates.vat
       let scPWD := if isEligibleForScPwdDiscount customer
         then (if b.vat.isVATInclusive
           then (netSales / (1 + vatRate)) * defaultSCPWDDiscount
           else netSales * defaultSCPWDDiscount)
         else b.discount.scPWD
       let whtRate := jsOr b.withholdingTax.rate 0
       let p := vatSwitch b.vat.vatSubtype b.vat.isVATInclusive netSales
         (1 + vatRate) vatRate (jsOr scPWD 0)
       let totalSalesVATInclusive :=
         if b.vat.isVATInclusive then netSales else p.salesVATable + p.totalVAT
       { totalSales := totalSales
         discount := { scPWD := scPWD, other := b.discount.other
                       totalDiscount := scPWD + b.discount.other }
         netReceivable := p.baseAmount - p.baseAmount * whtRate
         withholdingTax := { rate := whtRate
                             totalWithheldTax := p.baseAmount * whtRate }
         totalAmountDue := totalSalesVATInclusive - p.baseAmount * whtRate
         salesPT := 0
         exemptSales := 0
         vat := { rate := vatRate, isVATInclusive := b.vat.isVATInclusive
                  vatSubtype := b.vat.vatSubtype
                  totalVAT := p.totalVAT
                  salesVATable := p.salesVATable
                  vatExemptSales := p.vatExemptSales
                  vatZeroRatedSales := p.vatZeroRatedSales
                  totalSalesVATInclusive := totalSalesVATInclusive }
         percentageTax := { rate := 0, totalPercentageTax := 0 } }) :=
  rfl

/-- C6: for every invoice with at least one order line, every monetary output
field of the recomputed breakdown equals the exact (unrounded) value
prescribed by the algorithm, rounded to 2 decimal places as a single final
step; no rounding is applied to intermediate quantities.  The rounding is
round-half-up (halves go toward positive infinity), which also applies to
negative values: for every integer n the exact half `(2n+1)/200` (a value
whose third decimal is 5) rounds up to `(n+1)/100`. -/
theorem final_rounding_single_step (typ : InvoiceVATType)
    (customer : LegalEntity) (b : InvoiceBreakdown)
    (orders : List OrderMetadata) (h : orders ≠ []) :
    computeBreakdown typ customer orders b =
      applyRound2 (computeBreakdownExact typ customer orders b) ∧
    ∀ n : ℤ, round ((2 * n + 1 : ℚ) / 200) = ((n + 1 : ℤ) : ℚ) / 100 := by
  constructor
  · obtain ⟨o, os, rfl⟩ := List.exists_cons_of_ne_nil h
    cases typ
    · simp [computeBreakdown_nonvat_eq, computeBreakdownExact_nonvat_eq,
        applyRound2, round_zero, apply_ite round]
    · simp [computeBreakdown_vat_eq, computeBreakdownExact_vat_eq,
        applyRound2, round_zero, apply_ite round]
  · intro n
    have h100 : ((2 * n + 1 : ℚ) / 200) * 100 + 1 / 2 = ((n + 1 : ℤ) : ℚ) := by
      push_cast; ring
    rw [round, h100, Int.floor_intCast]

/-- C6 witness: the single-rounding identity instantiated on a concrete
non-VAT invoice with one 100 line, together with a concrete negative
half-case: −9.005 rounds up to −9.00. -/
theorem final_rounding_single_step_witness :
    ([line 100] ≠ ([] : List OrderMetadata)) ∧
    (computeBreakdown InvoiceVATType.NON_VAT plainCustomer [line 100]
        (mkBreakdown 0 .STANDARD true (3 / 100) (5 / 100) 0 0) =
      applyRound2 (computeBreakdownExact InvoiceVATType.NON_VAT plainCustomer
        [line 100] (mkBreakdown 0 .STANDARD true (3 / 100) (5 / 100) 0 0)) ∧
     ∀ n : ℤ, round ((2 * n + 1 : ℚ) / 200) = ((n + 1 : ℤ) : ℚ) / 100) ∧
    round (-(9005 : ℚ) / 1000) = -9 :=
  ⟨List.cons_ne_nil _ _,
   final_rounding_single_step InvoiceVATType.NON_VAT plainCustomer
     (mkBreakdown 0 .STANDARD true (3 / 100) (5 / 100) 0 0) [line 100]
     (List.cons_ne_nil _ _),
   by norm_num [round]⟩

/-- BIR metadata block of an invoice (`BIRMetadata`). -/
structure BIRMetadata where
  formNumber : String
  invoiceNumber : String
  series : String
  rdo : String
  type : InvoiceVATType
  category : InvoiceType
  companyLogo : Option String := none
deriving DecidableEq, Repr

/-- Bank account information (`BankInformation`). -/
structure BankInformation where
  name : String
  accountNumber : String
  branch : String
  code : String
  address : String
deriving DecidableEq, Repr

/-- Check information (`CheckInformation`). -/
structure CheckInformation where
  number : String
  date : String
deriving DecidableEq, Repr

/-- Payment method and related details (`PaymentInformation`). -/
structure PaymentInformation where
  method : InvoicePaymentMethod
  bank : Option BankInformation := none
  check : Option CheckInformation := none
  referenceNumber : Option String := none
deriving DecidableEq, Repr

/-- Order data: currency, line items and computed breakdown
(`OrderInformation`). -/
structure OrderInformation where
  currency : String
  orders : List OrderMetadata
  breakdown : InvoiceBreakdown
deriving DecidableEq, Repr

/-- A complete digital invoice (`DigitalInvoice`). -/
structure DigitalInvoice where
  id : String
  metadata : BIRMetadata
  customer : LegalEntity
  issuer : LegalEntity
  order : OrderInformation
  payment : PaymentInformation
  timestamp : String
deriving DecidableEq, Repr

/-- The instance method `this.computeBreakdown()`: replaces the stored
breakdown with the recomputed one. -/
def DigitalInvoice.recomputeBreakdown (inv : DigitalInvoice) : DigitalInvoice :=
  { inv with order := { inv.order with
      breakdown := computeBreakdown inv.metadata.type inv.customer
        inv.order.orders inv.order.breakdown } }

/-- JavaScript `bool || x` where `bool` is an optional boolean parameter:
both `undefined` and `false` are falsy, so only `some true` forces `true`. -/
def jsOrBool (b : Option Bool) (x : Bool) : Bool :=
  match b with
  | some true => true
  | some false => x
  | none => x

/-- Models `toggleVATInclusive(bool?)`: throws on non-VAT invoices; otherwise sets
`isVATInclusive` to `bool || !isVATInclusive` and recomputes the breakdown. -/
def toggleVATInclusive (inv : DigitalInvoice) (bOpt : Option Bool) :
    Except String DigitalInvoice :=
  if inv.metadata.type ≠ InvoiceVATType.VAT then
    .error "This invoice VAT type does not support this method."
  else
    let inv' := { inv with order := { inv.order with breakdown :=
      { inv.order.breakdown with vat := { inv.order.breakdown.vat with
        isVATInclusive :=
          jsOrBool bOpt (!inv.order.breakdown.vat.isVATInclusive) } } } }
    .ok inv'.recomputeBreakdown

/-- Recomputation on a VAT invoice carries the `isVATInclusive` flag through
unchanged, in each branch of the computation. -/
theorem computeBreakdown_vat_isVATInclusive (customer : LegalEntity)
    (orders : List OrderMetadata) (b : InvoiceBreakdown) :
    (computeBreakdown InvoiceVATType.VAT customer orders b).vat.isVATInclusive =
      b.vat.isVATInclusive := by
  cases orders with
  | nil => rfl
  | cons o os => rw [computeBreakdown_vat_eq]

/-- C10: for every VAT-type invoice, `toggleVATInclusive(false)` behaves
identically to `toggleVATInclusive()` with no argument — `false` is falsy in
`bool || !isVATInclusive`, so the flag is negated rather than forced to
false; in particular a currently VAT-exclusive invoice becomes VAT-inclusive
when `toggleVATInclusive(false)` is called. -/
theorem toggle_vat_inclusive_false_is_toggle (inv : DigitalInvoice) :
    toggleVATInclusive inv (some false) = toggleVATInclusive inv none ∧
    (inv.metadata.type = InvoiceVATType.VAT →
      inv.order.breakdown.vat.isVATInclusive = false →
      (toggleVATInclusive inv (some false)).map
        (fun i => i.order.breakdown.vat.isVATInclusive) = .ok true) := by
  constructor
  · rfl
  · intro ht hinc
    unfold toggleVATInclusive
    rw [if_neg (by simp [ht])]
    simp [Except.map, DigitalInvoice.recomputeBreakdown, ht, jsOrBool, hinc,
      computeBreakdown_vat_isVATInclusive]

/-- A concrete VAT-registered, currently VAT-exclusive invoice. -/
def sampleInvoice : DigitalInvoice :=
  { id := "INV-001"
    metadata := { formNumber := "2703", invoiceNumber := "1000A0001001"
                  series := "January 2020 (ENCS)", rdo := "000"
                  type := .VAT, category := .SALES }
    customer := plainCustomer
    issuer := plainCustomer
    order := { currency := "PHP", orders := [line 100]
               breakdown := mkBreakdown (12 / 100) .STANDARD false 0 0 0 0 }
    payment := { method := .CASH }
    timestamp := "2025-02-14T00:00:00.000Z" }

/-- C10 witness: on the concrete VAT-exclusive `sampleInvoice`, calling
`toggleVATInclusive(false)` yields a VAT-inclusive invoice. -/
theorem toggle_vat_inclusive_false_is_toggle_witness :
    (sampleInvoice.metadata.type = InvoiceVATType.VAT) ∧
    (sampleInvoice.order.breakdown.vat.isVATInclusive = false) ∧
    (toggleVATInclusive sampleInvoice (some false)).map
      (fun i => i.order.breakdown.vat.isVATInclusive) = .ok true :=
  ⟨rfl, rfl, (toggle_vat_inclusive_false_is_toggle sampleInvoice).2 rfl rfl⟩

/-- The session-level view of an invoice used by `BuwisFriend.addInvoice` and
`addInvoices`: its invoice number (`metadata.invoiceNumber`) and its issue
instant (`new Date(invoice.timestamp)`, as a numeric timestamp). -/
structure SessionInvoice where
  invoiceNumber : String
  issuedDate : ℤ
deriving DecidableEq, Repr

/-- A BuwisFriend filing session, reduced to what the insertion operations
read and write: the inclusive filing-period bounds produced by the external
`getQuarterDateRange(quarter, year)` collaborator, and the invoice list. -/
structure Session where
  periodStart : ℤ
  periodEnd : ℤ
  invoices : List SessionInvoice
deriving DecidableEq, Repr

/-- Models `doesInvoiceExist` called with an invoice argument: throws when the
invoice number is missing or trim-empty, else reports whether that number is
already present in the session. -/
def doesInvoiceExist (s : Session) (inv : SessionInvoice) : Except String Bool :=
  if jsTrim inv.invoiceNumber ≠ "" then
    .ok (s.invoices.any (fun j => j.invoiceNumber == inv.invoiceNumber))
  else
    .error "Invalid input: must be a string or a valid DigitalInvoice with metadata.invoiceNumber"

/-- Insert an invoice into a date-sorted list, keeping it sorted. -/
def insertByDate (inv : SessionInvoice) :
    List SessionInvoice → List SessionInvoice
  | [] => [inv]
  | x :: xs =>
    if inv.issuedDate < x.issuedDate then inv :: x :: xs
    else x :: insertByDate inv xs

/-- Stable sort by issue date, modelling `invoices.sort((a, b) =>
new Date(a.timestamp) - new Date(b.timestamp))`. -/
def sortByDate : List SessionInvoice → List SessionInvoice
  | [] => []
  | x :: xs => insertByDate x (sortByDate xs)

/-- Models `BuwisFriend.addInvoice`: duplicate check, then period check, then push
and re-sort.  Both checks precede the mutation, so a failure leaves the
session untouched. -/
def addInvoice (s : Session) (inv : SessionInvoice) : Except String Session :=
  match doesInvoiceExist s inv with
  | .error e => .error e
  | .ok true =>
    .error ("Invoice " ++ inv.invoiceNumber ++ " already exists in this session")
  | .ok false =>
    if inv.issuedDate < s.periodStart ∨ inv.issuedDate > s.periodEnd then
      .error ("Invoice " ++ inv.invoiceNumber ++ " is not fileable for this period.")
    else
      .ok { s with invoices := sortByDate (s.invoices ++ [inv]) }

/-- The validation loop of `BuwisFriend.addInvoices`: period check, then
batch-duplicate check (`seenInBatch`), then session-duplicate check, then
record the number as seen.  No session state is touched here. -/
def validateBatch (s : Session) (seenInBatch : List String) :
    List SessionInvoice → Except String Unit
  | [] => .ok ()
  | inv :: rest =>
    if inv.issuedDate < s.periodStart ∨ inv.issuedDate > s.periodEnd then
      .error ("Invoice " ++ inv.invoiceNumber ++ " is not fileable for this period")
    else if seenInBatch.any (· == inv.invoiceNumber) then
      .error ("Duplicate invoice number detected in batch: " ++ inv.invoiceNumber)
    else
      match doesInvoiceExist s inv with
      | .error e => .error e
      | .ok true =>
        .error ("Invoice " ++ inv.invoiceNumber ++ " already exists in this session")
      | .ok false => validateBatch s (inv.invoiceNumber :: seenInBatch) rest

/-- Models `BuwisFriend.addInvoices`: an empty batch returns the session unchanged;
otherwise the whole batch is validated first and only then merged and
sorted — all-or-nothing. -/
def addInvoices (s : Session) (newInvoices : List SessionInvoice) :
    Except String Session :=
  if newInvoices.isEmpty then .ok s
  else
    match validateBatch s [] newInvoices with
    | .error e => .error e
    | .ok _ => .ok { s with invoices := sortByDate (s.invoices ++ newInvoices) }

theorem length_insertByDate (inv : SessionInvoice) (l : List SessionInvoice) :
    (insertByDate inv l).length = l.length + 1 := by
  induction l with
  | nil => rfl
  | cons x xs ih =>
    unfold insertByDate
    split_ifs with h
    · simp
    · simp [ih]

theorem length_sortByDate (l : List SessionInvoice) :
    (sortByDate l).length = l.length := by
  induction l with
  | nil => rfl
  | cons x xs ih => simp [sortByDate, length_insertByDate, ih]

/-- If some invoice in the remaining batch is outside the period, duplicates
the session, or duplicates a number already seen — or the remaining batch
itself repeats a number — the validation loop returns an error. -/
theorem validateBatch_err (s : Session) (l : List SessionInvoice) :
    ∀ seen : List String,
    ((∃ i ∈ l, (i.issuedDate < s.periodStart ∨ i.issuedDate > s.periodEnd) ∨
        s.invoices.any (fun j => j.invoiceNumber == i.invoiceNumber) = true ∨
        seen.any (· == i.invoiceNumber) = true) ∨
      ¬ (l.map SessionInvoice.invoiceNumber).Nodup) →
    ∃ e, validateBatch s seen l = .error e := by
  induction l with
  | nil =>
    intro seen h
    rcases h with ⟨i, hi, _⟩ | hnd
    · cases hi
    · simp at hnd
  | cons x rest ih =>
    intro seen h
    by_cases hdate : x.issuedDate < s.periodStart ∨ x.issuedDate > s.periodEnd
    · exact ⟨_, by rw [validateBatch, if_pos hdate]⟩
    · by_cases hseen : seen.any (· == x.invoiceNumber) = true
      · exact ⟨_, by rw [validateBatch, if_neg hdate, if_pos hseen]⟩
      · by_cases htrim : jsTrim x.invoiceNumber = ""
        · exact ⟨_, by
            rw [validateBatch, if_neg hdate, if_neg hseen]
            unfold doesInvoiceExist
            rw [if_neg (by simpa using htrim)]⟩
        · by_cases hdup :
            s.invoices.any (fun j => j.invoiceNumber == x.invoiceNumber) = true
          · exact ⟨_, by
              rw [validateBatch, if_neg hdate, if_neg hseen]
              unfold doesInvoiceExist
              rw [if_pos (by simpa using htrim), hdup]⟩
          · have step : validateBatch s seen (x :: rest) =
                validateBatch s (x.invoiceNumber :: seen) rest := by
              rw [validateBatch, if_neg hdate, if_neg hseen]
              unfold doesInvoiceExist
              rw [if_pos (by simpa using htrim),
                Bool.eq_false_iff.mpr (fun hc => hdup hc)]
            rw [step]
            apply ih
            rcases h with ⟨i, hi, hbad⟩ | hnd
            · rcases List.mem_cons.mp hi with rfl | hi'
              · rcases hbad with hb | hb | hb
                · exact absurd hb hdate
                · exact absurd hb hdup
                · exact absurd hb hseen
              · refine Or.inl ⟨i, hi', ?_⟩
                rcases hbad with hb | hb | hb
                · exact Or.inl hb
                · exact Or.inr (Or.inl hb)
                · refine Or.inr (Or.inr ?_)
                  simp only [List.any_cons, Bool.or_eq_true]
                  exact Or.inr hb
            · rw [List.map_cons, List.nodup_cons] at hnd
              push_neg at hnd
              by_cases hmem : x.invoiceNumber ∈ rest.map SessionInvoice.invoiceNumber
              · obtain ⟨i, hi', hnum⟩ := List.mem_map.mp hmem
                refine Or.inl ⟨i, hi', Or.inr (Or.inr ?_)⟩
                simp only [List.any_cons, Bool.or_eq_true]
                exact Or.inl (by simp [hnum])
              · exact Or.inr (hnd hmem)

/-- C7: inserting an invoice whose number already exists in the session, or
whose issue date falls outside the session's filing period, always throws —
for the single `addInvoice` and for `addInvoices` batches (where an in-batch
duplicate number also throws); and a successful `addInvoices` applies the
whole batch (all-or-nothing: the mutation happens only after every check, so
an error returns no mutated session at all). -/
theorem session_insert_guards (s : Session) (inv : SessionInvoice)
    (batch : List SessionInvoice) :
    ((s.invoices.any (fun j => j.invoiceNumber == inv.invoiceNumber) = true ∨
        inv.issuedDate < s.periodStart ∨ inv.issuedDate > s.periodEnd) →
      ∃ e, addInvoice s inv = .error e) ∧
    (((∃ i ∈ batch,
          (i.issuedDate < s.periodStart ∨ i.issuedDate > s.periodEnd) ∨
          s.invoices.any (fun j => j.invoiceNumber == i.invoiceNumber) = true) ∨
        ¬ (batch.map SessionInvoice.invoiceNumber).Nodup) →
      ∃ e, addInvoices s batch = .error e) ∧
    (∀ s', addInvoices s batch = .ok s' →
      s'.periodStart = s.periodStart ∧ s'.periodEnd = s.periodEnd ∧
      s'.invoices.length = s.invoices.length + batch.length) := by
  refine ⟨?_, ?_, ?_⟩
  · intro hbad
    unfold addInvoice doesInvoiceExist
    by_cases htrim : jsTrim inv.invoiceNumber = ""
    · exact ⟨_, by rw [if_neg (by simpa using htrim)]⟩
    · rw [if_pos (by simpa using htrim)]
      rcases hbad with hdup | hdate
      · rw [hdup]
        exact ⟨_, rfl⟩
      · cases hany : s.invoices.any (fun j => j.invoiceNumber == inv.invoiceNumber) with
        | true => exact ⟨_, rfl⟩
        | false => exact ⟨_, by rw [if_pos hdate]⟩
  · intro hbad
    by_cases hemp : batch.isEmpty = true
    · exfalso
      have hb : batch = [] := List.isEmpty_iff.mp hemp
      subst hb
      rcases hbad with ⟨i, hi, _⟩ | hnd
      · cases hi
      · simp at hnd
    · have hval : ∃ e, validateBatch s [] batch = .error e := by
        apply validateBatch_err
        rcases hbad with ⟨i, hi, hb⟩ | hnd
        · exact Or.inl ⟨i, hi, hb.imp id Or.inl⟩
        · exact Or.inr hnd
      obtain ⟨e, he⟩ := hval
      refine ⟨e, ?_⟩
      unfold addInvoices
      rw [if_neg hemp, he]
  · intro s' hok
    unfold addInvoices at hok
    by_cases hemp : batch.isEmpty = true
    · rw [if_pos hemp] at hok
      cases hok
      have hb : batch = [] := List.isEmpty_iff.mp hemp
      subst hb
      simp
    · rw [if_neg hemp] at hok
      cases hval : validateBatch s [] batch with
      | error e => rw [hval] at hok; cases hok
      | ok u =>
        rw [hval] at hok
        cases hok
        simp [length_sortByDate]

/-- A concrete session: period [0, 100], one invoice numbered "A" issued at
instant 10. -/
def sampleSession : Session :=
  { periodStart := 0, periodEnd := 100
    invoices := [{ invoiceNumber := "A", issuedDate := 10 }] }

/-- C7 witness: on the concrete `sampleSession`, adding a second invoice
numbered "A" fails with an error, and a batch containing an invoice issued at
instant 200 (outside the period [0, 100]) fails with an error. -/
theorem session_insert_guards_witness :
    (∃ e, addInvoice sampleSession
      { invoiceNumber := "A", issuedDate := 20 } = .error e) ∧
    (∃ e, addInvoices sampleSession
      [{ invoiceNumber := "B", issuedDate := 200 }] = .error e) :=
  ⟨(session_insert_guards sampleSession ⟨"A", 20⟩ [⟨"B", 200⟩]).1
     (Or.inl (by decide)),
   (session_insert_guards sampleSession ⟨"A", 20⟩ [⟨"B", 200⟩]).2.1
     (Or.inl ⟨⟨"B", 200⟩, by decide, Or.inl (Or.inr (by decide))⟩)⟩

/-- A Money value: exact decimal amount in pesos plus an ISO-4217 currency
code (`Money` in finance-money, amount held as an arbitrary-precision
decimal). -/
structure Money where
  amount : ℚ
  currency : String
deriving DecidableEq, Repr

/-- JavaScript `toUpperCase` on one character (ASCII model). -/
def jsCharUpper (c : Char) : Char :=
  if c.isLower then Char.ofNat (c.toNat - 32) else c

/-- JavaScript `String.prototype.toUpperCase` (ASCII model), applied by the
Money constructor to the currency code. -/
def jsToUpper (s : String) : String := ⟨s.data.map jsCharUpper⟩

/-- The Money constructor: stores the value and the uppercased currency. -/
def Money.make (value : ℚ) (currency : String) : Money :=
  { amount := value, currency := jsToUpper currency }

/-- decimal.js `ROUND_HALF_UP`: round to the nearest integer, halves away
from zero. -/
def roundHalfAwayFromZero (x : ℚ) : ℤ :=
  if 0 ≤ x then ⌊x + 1 / 2⌋ else -⌊-x + 1 / 2⌋

/-- The canonical serialized form of a Money value: the fixed two-decimal
`toFixed(2)` amount string, represented by its integer number of centavos,
plus the currency code. -/
structure MoneyJSON where
  amountCents : ℤ
  currency : String
deriving DecidableEq, Repr

/-- Models `Money.toJSON`, producing the object with the amount as `toFixed(2)` plus the currency. -/
def Money.toJSON (m : Money) : MoneyJSON :=
  { amountCents := roundHalfAwayFromZero (m.amount * 100), currency := m.currency }

/-- Models `Money.parseFromJSON`: the currency must be a string (always so in this
typed model); reconstructs through the constructor, which re-uppercases. -/
def Money.parseFromJSON (j : MoneyJSON) : Money :=
  Money.make ((j.amountCents : ℚ) / 100) j.currency

/-- The plain-JSON projection of a `DigitalInvoice`; `Option` fields model
possibly-missing top-level properties of parsed data. -/
structure InvoiceJSON where
  id : Option String
  metadata : Option BIRMetadata
  customer : Option LegalEntity
  issuer : Option LegalEntity
  order : Option OrderInformation
  payment : Option PaymentInformation
  timestamp : Option String
deriving DecidableEq, Repr

/-- Models `DigitalInvoice.toJSON`: the plain-object projection of the invoice. -/
def DigitalInvoice.toJSON (d : DigitalInvoice) : InvoiceJSON :=
  { id := some d.id, metadata := some d.metadata, customer := some d.customer
    issuer := some d.issuer, order := some d.order, payment := some d.payment
    timestamp := some d.timestamp }

/-- JavaScript `x || d` on strings: the empty string is the falsy case. -/
def jsOrStr (x d : String) : String := if x = "" then d else x

/-- A character kept verbatim by the id slug (`[a-z0-9]` after
lowercasing). -/
def isSlugChar (c : Char) : Bool :=
  ('a' ≤ c ∧ c ≤ 'z') ∨ ('0' ≤ c ∧ c ≤ '9')

/-- Models the slug replacement of non-alphanumeric runs by dashes: each maximal run of non-slug characters
becomes a single dash.  `prevDash` records whether the previous character was
part of a run already replaced. -/
def collapseRuns (prevDash : Bool) : List Char → List Char
  | [] => []
  | c :: cs =>
    if isSlugChar c then c :: collapseRuns false cs
    else if prevDash then collapseRuns true cs
    else '-' :: collapseRuns true cs

/-- The slug of `autogenerateID`: lowercase, collapse non-alphanumeric runs
to dashes, trim leading and trailing dashes. -/
def slugify (s : String) : String :=
  ⟨((((collapseRuns false (s.data.map Char.toLower)).dropWhile
      (· == '-')).reverse.dropWhile (· == '-')).reverse)⟩

/-- Models `autogenerateID`, producing `invoice-[slug]-[unixTime]`; the Unix time read from
the clock in the source is an explicit parameter here. -/
def autogenerateID (input : String) (unixTime : ℕ) : String :=
  "invoice-" ++ slugify input ++ "-" ++ toString unixTime

/-- The `DigitalInvoice` constructor as reached from `parseFromJSON`: a falsy
(`undefined` or empty) id is replaced by an autogenerated one, and a falsy
timestamp by the current instant's ISO string.  The object-valued parameters
are the already-validated parsed values.  `now`/`nowISO` stand for the clock
reads in the source. -/
def DigitalInvoice.construct (idOpt : Option String) (metadata : BIRMetadata)
    (customer issuer : LegalEntity) (order : OrderInformation)
    (payment : PaymentInformation) (tsOpt : Option String) (now : ℕ)
    (nowISO : String) : DigitalInvoice :=
  { id := jsOrStr (idOpt.getD "")
      (autogenerateID (jsOrStr metadata.invoiceNumber "bir-invoice") now)
    metadata := metadata
    customer := customer
    issuer := issuer
    order := order
    payment := payment
    timestamp := jsOrStr (tsOpt.getD "") nowISO }

/-- Models `DigitalInvoice.parseFromJSON`: validates the six required top-level
properties (a missing property, or for `id` an empty string, is falsy and
throws), then constructs a new invoice passing `undefined` for the id. -/
def DigitalInvoice.parseFromJSON (j : InvoiceJSON) (now : ℕ) (nowISO : String) :
    Except String DigitalInvoice :=
  if j.id.getD "" = "" then .error "Missing required property: 'id'"
  else match j.metadata with
  | none => .error "Missing required property: 'metadata'"
  | some m =>
    match j.customer with
    | none => .error "Missing required property: 'customer'"
    | some c =>
      match j.issuer with
      | none => .error "Missing required property: 'issuer'"
      | some isr =>
        match j.order with
        | none => .error "Missing required property: 'order'"
        | some o =>
          match j.payment with
          | none => .error "Missing required property: 'payment'"
          | some p =>
            .ok (DigitalInvoice.construct none m c isr o p j.timestamp now nowISO)

theorem roundHalfAwayFromZero_intCast (k : ℤ) :
    roundHalfAwayFromZero (k : ℚ) = k := by
  unfold roundHalfAwayFromZero
  split_ifs with h
  · rw [Int.floor_int_add]
    norm_num
  · rw [show -((k : ℚ)) + 1 / 2 = ((-k : ℤ) : ℚ) + 1 / 2 by push_cast; ring,
      Int.floor_int_add]
    norm_num

/-- C8 counterexample: serialize → parse → serialize does not reproduce the
original serialized invoice.  `parseFromJSON` validates that `id` is present
but then passes `undefined` to the constructor, which autogenerates a fresh
`invoice-[slug]-[unixTime]` id, so the reserialized `id` differs from
"INV-001". -/
theorem invoice_roundtrip_counterexample :
    (DigitalInvoice.parseFromJSON (DigitalInvoice.toJSON sampleInvoice) 0
        "1970-01-01T00:00:00.000Z").map DigitalInvoice.toJSON ≠
      .ok (DigitalInvoice.toJSON sampleInvoice) := by
  have heval : (DigitalInvoice.parseFromJSON (DigitalInvoice.toJSON sampleInvoice)
      0 "1970-01-01T00:00:00.000Z").map DigitalInvoice.toJSON =
      .ok { DigitalInvoice.toJSON sampleInvoice with
              id := some "invoice-1000a0001001-0" } := rfl
  rw [heval]
  intro hcontra
  have hid := congrArg (fun r => (Except.toOption r).map InvoiceJSON.id) hcontra
  exact absurd hid (by decide)

/-- C8 (amended): serialization round-trips hold as claimed for Money
(for every Money whose currency is normalized, as the constructor
guarantees), and for DigitalInvoice on every top-level serialized field
EXCEPT `id`: parsing re-validates the required fields (failing loudly on a
missing `id`), but the constructor receives `undefined` for the id and
regenerates it, so the round-trip reproduces the serialized form only after
restoring the original id. -/
theorem serialization_roundtrip_except_id (m : Money) (d : DigitalInvoice)
    (now : ℕ) (nowISO : String) (hcur : jsToUpper m.currency = m.currency)
    (hid : d.id ≠ "") (hts : d.timestamp ≠ "") :
    Money.toJSON (Money.parseFromJSON (Money.toJSON m)) = Money.toJSON m ∧
    (DigitalInvoice.parseFromJSON (DigitalInvoice.toJSON d) now nowISO).map
        (fun x => DigitalInvoice.toJSON { x with id := d.id }) =
      .ok (DigitalInvoice.toJSON d) ∧
    DigitalInvoice.parseFromJSON { DigitalInvoice.toJSON d with id := none }
        now nowISO = .error "Missing required property: 'id'" := by
  refine ⟨?_, ?_, ?_⟩
  · unfold Money.toJSON Money.parseFromJSON Money.make
    simp only [hcur]
    congr 1
    rw [div_mul_cancel₀ _ (by norm_num : (100 : ℚ) ≠ 0),
      roundHalfAwayFromZero_intCast]
  · unfold DigitalInvoice.parseFromJSON DigitalInvoice.toJSON
      DigitalInvoice.construct jsOrStr
    simp [hid, hts, Except.map]
  · rfl

/-- C8 witness: the amended round-trip instantiated at the Money value
₱1.01 / "PHP" and at the concrete `sampleInvoice`. -/
theorem serialization_roundtrip_except_id_witness :
    (jsToUpper (Money.mk (101 / 100) "PHP").currency =
      (Money.mk (101 / 100) "PHP").currency) ∧
    (sampleInvoice.id ≠ "") ∧ (sampleInvoice.timestamp ≠ "") ∧
    (Money.toJSON (Money.parseFromJSON (Money.toJSON (Money.mk (101 / 100) "PHP"))) =
      Money.toJSON (Money.mk (101 / 100) "PHP") ∧
     (DigitalInvoice.parseFromJSON (DigitalInvoice.toJSON sampleInvoice) 0
        "1970-01-01T00:00:00.000Z").map
         (fun x => DigitalInvoice.toJSON { x with id := sampleInvoice.id }) =
       .ok (DigitalInvoice.toJSON sampleInvoice) ∧
     DigitalInvoice.parseFromJSON
        { DigitalInvoice.toJSON sampleInvoice with id := none } 0
        "1970-01-01T00:00:00.000Z" = .error "Missing required property: 'id'") :=
  ⟨by decide, by decide, by decide,
   serialization_roundtrip_except_id (Money.mk (101 / 100) "PHP") sampleInvoice 0
     "1970-01-01T00:00:00.000Z" (by decide) (by decide) (by decide)⟩

/-- Spec-side restatement (refinement target) of the flat 8%-option income
tax, following the spec's words: 0 tax if income ≤ 250,000; else
`(income − 250,000) × 0.08`. -/
def specFlatTax (income : ℚ) : ℚ :=
  if income ≤ 250000 then 0 else (income - 250000) * (8 / 100)

/-- Spec-side restatement (refinement target) of the graduated bracket table
in the spec, upper bounds inclusive. -/
def specGraduatedTax (income : ℚ) : ℚ :=
  if income ≤ 250000 then 0
  else if income ≤ 400000 then (income - 250000) * (15 / 100)
  else if income ≤ 800000 then 22500 + (income - 400000) * (20 / 100)
  else if income ≤ 2000000 then 102500 + (income - 800000) * (25 / 100)
  else if income ≤ 8000000 then 402500 + (income - 2000000) * (30 / 100)
  else 2202500 + (income - 8000000) * (35 / 100)

/-- C4: for every annual net taxable income, the FLAT regime yields 0 for
income ≤ 250,000 and `(income − 250,000) × 0.08` otherwise, and the GRADUATED
regime follows exactly the progressive table with inclusive upper bounds;
in particular income = 500,000 gives 42,500 graduated and 20,000 flat. -/
theorem income_tax_schedule_spec (income : ℚ) :
    computeGraduatedIncomeTax income IncomeTaxType.FLAT = specFlatTax income ∧
    computeGraduatedIncomeTax income IncomeTaxType.GRADUATED = specGraduatedTax income ∧
    computeGraduatedIncomeTax 500000 IncomeTaxType.GRADUATED = 42500 ∧
    computeGraduatedIncomeTax 500000 IncomeTaxType.FLAT = 20000 := by
  refine ⟨?_, ?_,
    by unfold computeGraduatedIncomeTax; rw [if_neg (by decide)]; norm_num,
    by unfold computeGraduatedIncomeTax; rw [if_pos rfl]; norm_num⟩
  · unfold computeGraduatedIncomeTax specFlatTax
    rw [if_pos rfl]
    rcases le_or_lt income 250000 with h | h
    · rw [if_neg (by linarith), if_pos h]
    · rw [if_pos h, if_neg (by linarith)]
  · rfl

/-- C5: recomputing the breakdown of an invoice with zero order lines zeroes
every monetary output field, zeroes the inactive tax block's rate, and
collapses the active block's rate to the registration-appropriate default
(the default VAT rate if VAT-registered else zero; the default percentage-tax
rate if not VAT-registered else zero).  The function is total: this terminal
case produces a defined breakdown, not an error. -/
theorem empty_order_breakdown_zeroed (typ : InvoiceVATType)
    (customer : LegalEntity) (b : InvoiceBreakdown) :
    let out := computeBreakdown typ customer [] b
    out.totalSales = 0 ∧ out.netReceivable = 0 ∧
    out.discount = { scPWD := 0, other := 0, totalDiscount := 0 } ∧
    out.totalAmountDue = 0 ∧ out.salesPT = 0 ∧ out.exemptSales = 0 ∧
    out.vat.totalVAT = 0 ∧ out.vat.salesVATable = 0 ∧
    out.vat.vatExemptSales = 0 ∧ out.vat.vatZeroRatedSales = 0 ∧
    out.vat.totalSalesVATInclusive = 0 ∧
    out.percentageTax.totalPercentageTax = 0 ∧
    out.withholdingTax.totalWithheldTax = 0 ∧
    out.vat.rate = (if typ = InvoiceVATType.VAT then defaultTaxRates.vat else 0) ∧
    out.percentageTax.rate =
      (if typ = InvoiceVATType.VAT then 0 else defaultTaxRates.percentageTax) := by
  cases typ <;>
    exact ⟨rfl, rfl, rfl, rfl, rfl, rfl, rfl, rfl, rfl, rfl, rfl, rfl, rfl, rfl, rfl⟩

end Buwis
